import Mathlib

/-!
Shallow embedding of the core of the audio-extraction-service repository:
the media type catalog (`app/core/media_types.py`), the validation pipeline
(`app/utils/file_validation.py`), the FFmpeg transcode processors
(`app/utils/ffmpeg_utils.py`) and the batch event processor
(`app/services/event_processor.py`).

External collaborators (S3, the Magika engine, the ffmpeg/ffprobe
subprocesses, `json.loads`, Python `float()`) are modelled as explicit
seam parameters: the embedded functions consume the collaborator's
response exactly the way the Python code consumes it.

Machine-level conventions: Python `int` is `Int`, Python `float` values
that the code compares and stores are `ℚ` (all comparisons performed by
the code are exact on the decimal payloads it receives), Python `str` is
`String`, a filesystem state is the list of paths that currently exist.
-/

/-! ## Python string helpers used by the embedded code -/

/-- ASCII lowering of one character (the only case Python `str.lower()`
    meets on the inputs of this service). -/
def charLower (c : Char) : Char :=
  if 65 ≤ c.toNat ∧ c.toNat ≤ 90 then Char.ofNat (c.toNat + 32) else c

/-- Model of Python `str.lower()`. -/
def pyLower (s : String) : String := String.mk (s.data.map charLower)

/-- Model of Python `str.endswith(suffix)`. -/
def pyEndsWith (s suffix : String) : Bool :=
  (s.data.drop (s.data.length - suffix.data.length)) == suffix.data

/-- Model of Python `str.startswith(pre)`. -/
def pyStartsWith (s pre : String) : Bool := List.isPrefixOf pre.data s.data

/-- The whitespace characters stripped by Python `str.strip()` that can
    occur in this service's inputs. -/
def isSpaceC (c : Char) : Bool := c == ' ' || c == '\t' || c == '\n' || c == '\r'

/-- Model of Python `str.strip()` (whitespace strip on both ends). -/
def pyStrip (s : String) : String :=
  String.mk (((s.data.dropWhile isSpaceC).reverse.dropWhile isSpaceC).reverse)

/-- Split a character list on a separator character, Python
    `str.split(sep)` style (an empty input yields one empty field). -/
def splitCharD (sep : Char) : List Char → List (List Char)
  | [] => [[]]
  | c :: rest =>
    let r := splitCharD sep rest
    if c == sep then [] :: r
    else
      match r with
      | [] => [[c]]
      | h :: t => (c :: h) :: t

/-- Model of Python `str.split(sep)` for a one-character separator. -/
def splitStr (sep : Char) (s : String) : List String :=
  (splitCharD sep s.data).map String.mk

/-- Model of Python `str.splitlines()` for newline-separated text
    (applied in the source only to already-stripped text). -/
def pySplitlines (s : String) : List String :=
  if s = "" then [] else splitStr '\n' s

/-- Helper of `strContains`: does `pat` occur in the character list. -/
def containsAux (pat : List Char) : List Char → Bool
  | [] => pat.isEmpty
  | c :: rest => List.isPrefixOf pat (c :: rest) || containsAux pat rest

/-- Model of the Python substring test `pat in s`. -/
def strContains (s pat : String) : Bool := containsAux pat.data s.data

/-- Digit-grouping step for `pyCommaFormat`: the input is the reversed
    digit list, `k` counts digits already emitted. -/
def commaRev : List Char → Nat → List Char
  | [], _ => []
  | [c], _ => [c]
  | c :: cs, k =>
    if k % 3 = 2 then c :: ',' :: commaRev cs (k + 1)
    else c :: commaRev cs (k + 1)

/-- Model of the Python format `f"{n:,}"` on integers: decimal digits
    grouped in threes by commas. -/
def pyCommaFormat (n : Int) : String :=
  let sign := if n < 0 then "-" else ""
  let digits := toString n.natAbs
  sign ++ String.mk ((commaRev digits.toList.reverse 0).reverse)

/-- Left-pad a digit string with zeros up to width `d`. -/
def padLeftZeros (s : String) (d : Nat) : String :=
  if s.length ≥ d then s else String.mk (List.replicate (d - s.length) '0') ++ s

/-- Model of the Python fixed-point format `f"{q:.d f}"` on the exact
    rational payload: round to `d` decimal places (half towards positive
    infinity; the payloads the service formats are never ties) and render.
    The scaled integer is `floor(q * 10^d + 1/2)` computed on the
    numerator and denominator. -/
def formatFixed (d : Nat) (q : ℚ) : String :=
  let scaled : Int := Int.fdiv (2 * q.num * (10 : Int) ^ d + q.den) (2 * q.den)
  let sign := if scaled < 0 then "-" else ""
  let a := scaled.natAbs
  if d = 0 then sign ++ toString a
  else sign ++ toString (a / 10 ^ d) ++ "." ++ padLeftZeros (toString (a % 10 ^ d)) d

/-- The digit-string reader of `decFloat`. -/
def digitsToNum (cs : List Char) : Option Nat :=
  if cs ≠ [] ∧ cs.all (fun c => 48 ≤ c.toNat ∧ c.toNat ≤ 57) then
    some (cs.foldl (fun acc c => acc * 10 + (c.toNat - 48)) (0 : Nat))
  else none

/-- Model of Python `float()` restricted to the plain decimal literals the
    service receives from ffprobe (optional sign, digits, optional dot and
    fraction digits); used to instantiate the `float()` seam in concrete
    scenarios. -/
def decFloat (s : String) : Option ℚ :=
  let core := fun (sign : Int) (body : String) =>
    match splitStr '.' body with
    | [w] => (digitsToNum w.data).map (fun n => ((sign * n : Int) : ℚ))
    | [w, f] =>
      match digitsToNum w.data, digitsToNum f.data with
      | some a, some b =>
        some (Rat.divInt (sign * ((a : Int) * (10 : Int) ^ f.length + b))
          ((10 : Int) ^ f.length))
      | _, _ => none
    | _ => none
  if pyStartsWith s "-" then core (-1) (String.mk (s.data.drop 1))
  else core 1 s

/-- Join character lists with a separator character (Python
    `sep.join(parts)`). -/
def joinCharD (sep : Char) : List (List Char) → List Char
  | [] => []
  | [h] => h
  | h :: t => h ++ sep :: joinCharD sep t

/-- Model of `pathlib.Path(p).stem` for forward-slash paths: the final
    path component without its last suffix. -/
def pyStem (p : String) : String :=
  let name := (splitStr '/' p).getLastD ""
  let parts := splitCharD '.' name.data
  if parts.length ≤ 1 then name
  else if pyStartsWith name "." ∧ parts.length = 2 then name
  else String.mk (joinCharD '.' parts.dropLast)

/-! ## `app/core/media_types.py` -/

namespace MediaTypes

/-- The registry `MediaTypes._SUPPORTED_FORMATS`, exactly as written in
    `app/core/media_types.py` (it holds only the eight video formats). -/
def SUPPORTED_FORMATS : List (String × String) :=
  [("mp4", ".mp4"), ("m4v", ".m4v"), ("avi", ".avi"), ("mov", ".mov"),
   ("mkv", ".mkv"), ("webm", ".webm"), ("wmv", ".wmv"), ("3gp", ".3gp")]

/-- `MediaTypes.get_supported_format_names`. -/
def get_supported_format_names : List String := SUPPORTED_FORMATS.map Prod.fst

/-- `MediaTypes.get_supported_extensions`. -/
def get_supported_extensions : List String := SUPPORTED_FORMATS.map Prod.snd

/-- `MediaTypes.is_supported_format`: membership of the lowercased name
    among the registry keys. -/
def is_supported_format (format_name : String) : Bool :=
  get_supported_format_names.contains (pyLower format_name)

/-- `MediaTypes.is_supported_extension`. -/
def is_supported_extension (extension : String) : Bool :=
  get_supported_extensions.contains (pyLower extension)

/-- `MediaTypes.is_audio_file`: the lowercased key must end in one of the
    supported extensions. -/
def is_audio_file (object_key : String) : Bool :=
  get_supported_extensions.any (fun ext => pyEndsWith (pyLower object_key) ext)

end MediaTypes

/-! ## `app/core/config.py` -/

/-- The settings consumed by the core (`app/core/config.py`), with the
    source defaults. -/
structure Settings where
  MAX_VIDEO_FILE_SIZE : Int := 1000 * 1024 * 1024
  MAX_AUDIO_DURATION : Int := 24 * 60 * 60
  S3_PRESIGNED_URL_EXPIRY : Int := 300
  FFMPEG_TIMEOUT : Int := 300
  FFPROBE_TIMEOUT : Int := 30
  ENABLE_MAGIC_BYTE_VALIDATION : Bool := true
  ENABLE_FFPROBE_VALIDATION : Bool := true
  deriving DecidableEq, Repr

/-! ## Parsed ffprobe output (the shape `json.loads` + `.get` give the code) -/

/-- One entry of the ffprobe `streams` array; a missing key is `none`. -/
structure FFStream where
  codec_type : Option String := none
  codec_name : Option String := none
  deriving DecidableEq, Repr

/-- The ffprobe `format` object; a missing key is `none` (so a missing
    `format` object is modelled by the all-`none` record, matching
    `metadata.get("format", {})`). -/
structure FFFormat where
  duration : Option String := none
  bit_rate : Option String := none
  format_name : Option String := none
  size : Option String := none
  deriving DecidableEq, Repr

/-- A parsed ffprobe JSON document, matching `metadata.get("format", {})`
    and `metadata.get("streams", [])`. -/
structure FFprobeOutput where
  format : FFFormat := {}
  streams : List FFStream := []
  deriving DecidableEq, Repr

/-! ## Magika results (the collaborator response consumed by layer 2) -/

/-- The `output` member of a Magika identification result. -/
structure MagikaOutput where
  label : String := ""
  description : String := ""
  mime_type : String := ""
  group : String := ""
  is_text : Bool := false
  deriving DecidableEq, Repr

/-- A Magika identification result as consumed by `_validate_magic_bytes`. -/
structure MagikaResult where
  ok : Bool := true
  status : String := ""
  output : MagikaOutput := {}
  score : ℚ := 0
  deriving DecidableEq, Repr

/-! ## The `ValidationResult` accumulator (`app/utils/file_validation.py`) -/

/-- Values stored in the Python `metadata` dict of the result objects. -/
inductive MetaVal where
  | int (n : Int)
  | rat (q : ℚ)
  | str (s : String)
  | optStr (s : Option String)
  | magikaInfo (label description mime_type : String) (score : ℚ)
      (group : String) (is_text : Bool)
  | ffprobeData (md : FFprobeOutput)
  | streamList (l : List FFStream)
  deriving DecidableEq, Repr

/-- Python dict assignment `m[k] = v`: overwrite in place or append. -/
def dictSet (m : List (String × MetaVal)) (k : String) (v : MetaVal) :
    List (String × MetaVal) :=
  if m.any (fun p => p.1 == k) then
    m.map (fun p => if p.1 == k then (k, v) else p)
  else m ++ [(k, v)]

/-- Python dict lookup `m.get(k)`. -/
def dictGet (m : List (String × MetaVal)) (k : String) : Option MetaVal :=
  (m.find? (fun p => p.1 == k)).map Prod.snd

/-- The `ValidationResult` container, with the constructor defaults of the
    Python class. -/
structure ValidationResult where
  is_valid : Bool := false
  file_type : Option String := none
  errors : List String := []
  warnings : List String := []
  metadata : List (String × MetaVal) := []
  deriving DecidableEq, Repr

/-- `ValidationResult.add_error`: append to the error list. -/
def ValidationResult.add_error (r : ValidationResult) (message : String) :
    ValidationResult :=
  { r with errors := r.errors ++ [message] }

/-- `ValidationResult.add_warning`: append to the warning list. -/
def ValidationResult.add_warning (r : ValidationResult) (message : String) :
    ValidationResult :=
  { r with warnings := r.warnings ++ [message] }

/-- Assignment `result.metadata[k] = v`. -/
def ValidationResult.setMeta (r : ValidationResult) (k : String) (v : MetaVal) :
    ValidationResult :=
  { r with metadata := dictSet r.metadata k v }

/-! ## `AudioFileValidator` (`app/utils/file_validation.py`) -/

namespace AudioFileValidator

/-- Exceptions a stage can receive from its collaborators: a botocore
    `ClientError` or any other Python exception (carrying its rendering). -/
inductive PyErr where
  | clientError (msg : String)
  | other (msg : String)
  deriving DecidableEq, Repr

/-- Outcome of one subprocess invocation through `asyncio.wait_for`:
    either the timeout expired or the process completed with an exit code
    and its decoded stdout/stderr. -/
inductive ProcRun where
  | timeoutExpired
  | completed (returncode : Int) (stdout : String) (stderr : String)
  deriving DecidableEq, Repr

/-- The collaborator responses one validation run consumes: the
    `head_object` content length (layer 0), the S3-range read plus Magika
    identification (layer 1-2), and the ffprobe subprocess run (layer 3). -/
structure ValidationEnv where
  headResult : Except String Int
  sniff : Except PyErr MagikaResult
  probeRun : ProcRun
  deriving Repr

/-- `AudioFileValidator._validate_basic_properties`. -/
def validate_basic_properties (st : Settings) (object_key : String)
    (object_size : Int) (r : ValidationResult) : Bool × ValidationResult :=
  let _ := object_key
  if object_size = 0 then
    (false, r.add_error "File is empty (0 bytes)")
  else if object_size > st.MAX_VIDEO_FILE_SIZE then
    (false, r.add_error ("File too large: " ++ pyCommaFormat object_size ++
      " bytes (max: " ++ pyCommaFormat st.MAX_VIDEO_FILE_SIZE ++ " bytes)"))
  else
    (true, r.setMeta "file_size" (.int object_size))

/-- `AudioFileValidator._validate_magic_bytes`, consuming the S3-read /
    Magika seam. -/
def validate_magic_bytes (sniff : Except PyErr MagikaResult)
    (r : ValidationResult) : Bool × ValidationResult :=
  match sniff with
  | .error (.clientError e) =>
    (false, r.add_error ("Failed to read file content from S3: " ++ e))
  | .error (.other e) =>
    (false, r.add_error ("Magika content validation error: " ++ e))
  | .ok mres =>
    if !mres.ok then
      (false, r.add_error ("Magika analysis failed: " ++ mres.status))
    else
      let r := r.setMeta "magika" (.magikaInfo mres.output.label
        mres.output.description mres.output.mime_type mres.score
        mres.output.group mres.output.is_text)
      if !MediaTypes.is_supported_format mres.output.label then
        (false, r.add_error ("File content detected as \x27" ++
          mres.output.description ++ "\x27 (" ++ mres.output.label ++
          ") which is not a supported audio/video format. Confidence: " ++
          formatFixed 3 mres.score))
      else
        let r := { r with file_type := some mres.output.label }
        let r := r.setMeta "detected_type" (.str mres.output.label)
        let r := r.setMeta "mime_type" (.str mres.output.mime_type)
        (true, r)

/-- The keyword list of `AudioFileValidator._extract_ffmpeg_error`. -/
def error_keywords : List String :=
  ["error", "invalid", "fail", "could not", "no such", "denied",
   "unsupported", "unable", "can\x27t open", "conversion failed",
   "not found", "permission denied"]

/-- `AudioFileValidator._extract_ffmpeg_error`: scan the last five stderr
    lines (most recent first) for a keyword match, else fall back to the
    last non-empty line. -/
def extract_ffmpeg_error (stderr_text : String) : String :=
  if stderr_text = "" then "Unknown FFmpeg error (stderr is empty)"
  else
    let lines := pySplitlines (pyStrip stderr_text)
    if lines = [] then "Unknown FFmpeg error (no stderr content)"
    else
      match (lines.drop (lines.length - 5)).reverse.find?
          (fun line => error_keywords.any
            (fun kw => strContains (pyLower (pyStrip line)) kw)) with
      | some line => (pyStrip line).take 300
      | none =>
        match lines.reverse.find? (fun line => pyStrip line ≠ "") with
        | some line => line.take 300
        | none => "Unknown FFmpeg error"

/-- `AudioFileValidator._validate_audio_metadata`. `pf` is the Python
    `float()` seam. -/
def validate_audio_metadata (pf : String → Option ℚ) (st : Settings)
    (metadata : FFprobeOutput) (r : ValidationResult) :
    Bool × ValidationResult :=
  let format_info := metadata.format
  let streams := metadata.streams
  let audio_streams := streams.filter (fun s => s.codec_type == some "audio")
  let video_streams := streams.filter (fun s => s.codec_type == some "video")
  if audio_streams.isEmpty && video_streams.isEmpty then
    (false, r.add_error "No audio or video streams found in file")
  else if audio_streams.isEmpty && !video_streams.isEmpty then
    (false, r.add_error "File contains video but no audio streams")
  else
    let step : Bool × ValidationResult :=
      match format_info.duration with
      | some ds =>
        if ds ≠ "" then
          match pf ds with
          | some duration =>
            let r := r.setMeta "duration" (.rat duration)
            if duration ≤ 0 then
              (false, r.add_error "Invalid duration (≤ 0 seconds)")
            else if duration > (st.MAX_AUDIO_DURATION : ℚ) then
              (true, r.add_warning ("Very long audio file: " ++
                formatFixed 1 duration ++ "s (max recommended: " ++
                toString st.MAX_AUDIO_DURATION ++ "s)"))
            else
              (true, r)
          | none => (true, r.add_warning "Unable to parse audio duration")
        else (true, r.add_warning "Duration information not available")
      | none => (true, r.add_warning "Duration information not available")
    if !step.1 then (false, step.2)
    else
      let r := step.2
      let r := r.setMeta "format_name" (.optStr format_info.format_name)
      let r := r.setMeta "bit_rate" (.optStr format_info.bit_rate)
      let r := r.setMeta "audio_stream_count" (.int audio_streams.length)
      let r := r.setMeta "video_stream_count" (.int video_streams.length)
      (true, r)

/-- `AudioFileValidator._validate_with_ffprobe`, consuming the subprocess
    seam `run` and the `json.loads` seam `jp` applied to its stdout. -/
def validate_with_ffprobe (jp : String → Except String FFprobeOutput)
    (pf : String → Option ℚ) (st : Settings) (run : ProcRun)
    (r : ValidationResult) : Bool × ValidationResult :=
  match run with
  | .timeoutExpired =>
    (false, r.add_error ("FFprobe validation timed out after " ++
      toString st.FFPROBE_TIMEOUT ++ "s"))
  | .completed returncode stdout stderr =>
    if returncode ≠ 0 then
      (false, r.add_error ("FFprobe validation failed: " ++
        extract_ffmpeg_error stderr))
    else
      match jp stdout with
      | .error e =>
        (false, r.add_error ("Failed to parse ffprobe output: " ++ e))
      | .ok metadata =>
        let r := r.setMeta "ffprobe" (.ffprobeData metadata)
        validate_audio_metadata pf st metadata r

/-- `AudioFileValidator._get_object_size`: the `head_object` seam; a
    `ClientError` becomes an error entry and an unresolved size. -/
def get_object_size (headResult : Except String Int) (r : ValidationResult) :
    Option Int × ValidationResult :=
  match headResult with
  | .ok n => (some n, r)
  | .error e => (none, r.add_error ("Failed to get object metadata: " ++ e))

/-- The layer chain of `validate_audio_file` once a size is resolved. -/
def validate_layers (jp : String → Except String FFprobeOutput)
    (pf : String → Option ℚ) (st : Settings) (env : ValidationEnv)
    (object_key : String) (object_size : Int) (r : ValidationResult) :
    ValidationResult :=
  let s1 := validate_basic_properties st object_key object_size r
  if !s1.1 then s1.2
  else
    let s2 := validate_magic_bytes env.sniff s1.2
    if !s2.1 then s2.2
    else
      let s3 := validate_with_ffprobe jp pf st env.probeRun s2.2
      if !s3.1 then s3.2
      else { s3.2 with is_valid := true }

/-- `AudioFileValidator.validate_audio_file`: resolve the size if absent,
    then run the three validation layers in order, setting `is_valid` only
    when every layer passed. (Exceptions of the collaborators are carried
    by the seams; the final catch-all of the source is unreachable in the
    embedding.) -/
def validate_audio_file (jp : String → Except String FFprobeOutput)
    (pf : String → Option ℚ) (st : Settings) (env : ValidationEnv)
    (object_key : String) (object_size : Option Int) : ValidationResult :=
  let r : ValidationResult := {}
  match object_size with
  | none =>
    match get_object_size env.headResult r with
    | (none, r) => r
    | (some size, r) => validate_layers jp pf st env object_key size r
  | some size => validate_layers jp pf st env object_key size r

end AudioFileValidator

/-! ## FFmpeg processors (`app/utils/ffmpeg_utils.py`) -/

/-- The `FFmpegResult` container, with the constructor defaults. -/
structure FFmpegResult where
  success : Bool := false
  output_path : Option String := none
  metadata : List (String × MetaVal) := []
  error_message : Option String := none
  processing_time : ℚ := 0
  deriving DecidableEq, Repr

/-- A filesystem state: the set of paths that currently exist, as a list. -/
def FileSys : Type := List String

/-- Model of `os.path.exists`. -/
def FileSys.exists (fs : FileSys) (p : String) : Bool :=
  List.contains fs p

/-- Model of a successful `os.unlink`: the path no longer exists. -/
def FileSys.unlink (fs : FileSys) (p : String) : FileSys :=
  List.filter (fun q => q != p) fs

namespace SyncFFmpegProcessor

/-- `SyncFFmpegProcessor._generate_output_path`: temp dir joined with
    `stem_timestamp.format` (`timestamp` is the millisecond clock seam). -/
def generate_output_path (temp_dir input_path output_format : String)
    (timestamp : Int) : String :=
  temp_dir ++ "/" ++ pyStem input_path ++ "_" ++ toString timestamp ++ "." ++
    output_format

/-- `SyncFFmpegProcessor._build_extraction_command`: base argv ending in
    the output path, then format-specific flags appended AFTER the path
    for lowercased "mp3"/"flac". -/
def build_extraction_command (input_path output_path output_format
    audio_codec : String) (sample_rate channels : Int) : List String :=
  let cmd := ["ffmpeg", "-i", input_path, "-vn", "-acodec", audio_codec,
    "-ar", toString sample_rate, "-ac", toString channels, "-y", output_path]
  if pyLower output_format = "mp3" then cmd ++ ["-q:a", "2"]
  else if pyLower output_format = "flac" then cmd ++ ["-compression_level", "8"]
  else cmd

/-- The error patterns of `SyncFFmpegProcessor._extract_ffmpeg_error`
    (matched case-sensitively). -/
def error_patterns : List String :=
  ["No such file or directory", "Invalid data found", "Permission denied",
   "Disk full", "Unknown encoder", "Invalid argument"]

/-- `SyncFFmpegProcessor._extract_ffmpeg_error`: bottom-up scan for a
    known pattern or an error-prefixed line, else the last non-empty line. -/
def extract_ffmpeg_error (stderr_text : String) : String :=
  if stderr_text = "" then "Unknown FFmpeg error"
  else
    let lines := splitStr '\n' (pyStrip stderr_text)
    match lines.reverse.find? (fun line =>
        let line := pyStrip line
        (error_patterns.any (fun pat => strContains line pat)) ||
        pyStartsWith line "[error]" || pyStartsWith line "Error" ||
        pyStartsWith line "ERROR") with
    | some line => pyStrip line
    | none =>
      match lines.reverse.find? (fun line => pyStrip line ≠ "") with
      | some line => pyStrip line
      | none => "Unknown FFmpeg error"

/-- Outcome of `subprocess.run` with a timeout: either
    `subprocess.TimeoutExpired` was raised or the process completed. -/
inductive SyncRun where
  | timeoutExpired
  | completed (returncode : Int) (stdout : String) (stderr : String)
  deriving DecidableEq, Repr

/-- `SyncFFmpegProcessor._extract_output_metadata`, with the ffprobe
    run-and-parse collaborator as the seam `metaRun` (`none` models any
    failure, which the source only logs). -/
def extract_output_metadata (metaRun : Option FFprobeOutput)
    (result : FFmpegResult) : FFmpegResult :=
  match metaRun with
  | none => result
  | some md =>
    { result with metadata :=
        [("duration", .optStr md.format.duration),
         ("size", .optStr md.format.size),
         ("bit_rate", .optStr md.format.bit_rate),
         ("streams", .streamList md.streams)] }

/-- `SyncFFmpegProcessor.extract_audio`. Seams: `timestamp` for the output
    path clock, `run` for the ffmpeg subprocess outcome, `fsAfter` for the
    filesystem state right after the subprocess step (the partially or
    fully written output file, if any, is in it), `elapsed` for the
    elapsed wall clock, `metaRun` for the post-success ffprobe. Returns
    the result plus the filesystem state at return time. -/
def extract_audio (st : Settings) (temp_dir input_path output_format
    audio_codec : String) (sample_rate channels : Int) (timestamp : Int)
    (run : SyncRun) (fsAfter : FileSys) (elapsed : ℚ)
    (metaRun : Option FFprobeOutput) : FFmpegResult × FileSys :=
  let result : FFmpegResult := {}
  let output_path := generate_output_path temp_dir input_path output_format
    timestamp
  let _cmd := build_extraction_command input_path output_path output_format
    audio_codec sample_rate channels
  match run with
  | .timeoutExpired =>
    ({ result with error_message := some ("FFmpeg processing timed out after "
        ++ toString st.FFMPEG_TIMEOUT ++ "s") }, fsAfter)
  | .completed returncode _ stderr =>
    let result := { result with processing_time := elapsed }
    if returncode = 0 then
      let result := { result with success := true }
      let result := { result with output_path := some output_path }
      (extract_output_metadata metaRun result, fsAfter)
    else
      let result := { result with
        error_message := some (extract_ffmpeg_error stderr) }
      if fsAfter.exists output_path then (result, fsAfter.unlink output_path)
      else (result, fsAfter)

/-- `SyncFFmpegProcessor.cleanup_file`: best-effort delete behind a
    catch-all; `unlink` is the `os.unlink` collaborator seam (`.error`
    models a raised `OSError`, which the source logs and swallows,
    leaving the filesystem as it was). -/
def cleanup_file (unlink : FileSys → String → Except String FileSys)
    (fs : FileSys) (file_path : String) : FileSys :=
  if fs.exists file_path then
    match unlink fs file_path with
    | .ok fs2 => fs2
    | .error _ => fs
  else fs

end SyncFFmpegProcessor

namespace FFmpegProcessor

/-- `FFmpegProcessor._build_extraction_command`: format-specific flags are
    appended first (note: exact, non-lowercased comparison) and the output
    path is always appended last. -/
def build_extraction_command (input_path output_path output_format
    audio_codec : String) (sample_rate channels : Int) : List String :=
  let cmd := ["ffmpeg", "-i", input_path, "-vn", "-acodec", audio_codec,
    "-ar", toString sample_rate, "-ac", toString channels, "-y"]
  let cmd :=
    if output_format = "mp3" then cmd ++ ["-b:a", "192k"]
    else if output_format = "flac" then cmd ++ ["-compression_level", "5"]
    else cmd
  cmd ++ [output_path]

/-- `FFmpegProcessor.cleanup_file` (async variant): same best-effort
    delete, additionally guarded by the truthiness of `file_path`. -/
def cleanup_file (unlink : FileSys → String → Except String FileSys)
    (fs : FileSys) (file_path : String) : FileSys :=
  if !file_path.isEmpty && fs.exists file_path then
    match unlink fs file_path with
    | .ok fs2 => fs2
    | .error _ => fs
  else fs

end FFmpegProcessor

/-! ## Batch event processing (`app/services/event_processor.py`) -/

/-- The fields of an inbound SQS record that the batch loop consumes. -/
structure SQSRecordM where
  messageId : String
  body : String
  eventSourceARN : String
  deriving DecidableEq, Repr

/-- The per-record response entry (`app/schemas/events.py`). -/
structure ProcessedRecord where
  messageId : String
  processed : Bool
  body_length : Nat
  source : String
  deriving DecidableEq, Repr

/-- The batch response (`app/schemas/events.py`). -/
structure EventProcessingResponse where
  status : String
  processed_count : Nat
  records : List ProcessedRecord
  deriving DecidableEq, Repr

namespace EventProcessorService

/-- `EventProcessorService._process_single_record`: parse the body as an
    S3 event (the `model_validate_json` seam `parse`); a parse failure is
    logged and re-raised, success yields a `processed=true` entry. (The
    per-S3-record handling swallows its own exceptions behind catch-alls,
    so only the parse step can raise here.) -/
def process_single_record (parse : String → Except String Unit)
    (record : SQSRecordM) : Except String ProcessedRecord :=
  match parse record.body with
  | .error e => .error e
  | .ok _ =>
    .ok { messageId := record.messageId, processed := true,
          body_length := record.body.length,
          source := record.eventSourceARN }

/-- The batch loop of `process_events`: each record is handed to the
    per-record handler; an escaping exception is caught and converted
    into a `processed=false` entry built from that record's fields. -/
def processLoop (handler : SQSRecordM → Except String ProcessedRecord) :
    List SQSRecordM → List ProcessedRecord
  | [] => []
  | record :: rest =>
    (match handler record with
     | .ok pr => pr
     | .error _ =>
       { messageId := record.messageId, processed := false,
         body_length := record.body.length,
         source := record.eventSourceARN }) :: processLoop handler rest

/-- `EventProcessorService.process_events`: iterate the batch and report
    overall success with the per-record entries. -/
def process_events (handler : SQSRecordM → Except String ProcessedRecord)
    (records : List SQSRecordM) : EventProcessingResponse :=
  let processed_records := processLoop handler records
  { status := "success", processed_count := processed_records.length,
    records := processed_records }

end EventProcessorService

/-! ## Auxiliary definitions used by the verification statements -/

/-- The deterministic model of a succeeding `os.unlink` collaborator. -/
def unlinkDet : FileSys → String → Except String FileSys :=
  fun fs p => .ok (fs.unlink p)

/-- Recomputation of the layer verdicts of `validate_audio_file` on a
    fresh result object: size resolution, then the three layer booleans
    (each layer's verdict is independent of the accumulated result). -/
def all_layers_pass (jp : String → Except String FFprobeOutput)
    (pf : String → Option ℚ) (st : Settings)
    (env : AudioFileValidator.ValidationEnv) (object_key : String)
    (object_size : Option Int) : Bool :=
  match (match object_size with
         | some s => some s
         | none => env.headResult.toOption) with
  | none => false
  | some size =>
    (AudioFileValidator.validate_basic_properties st object_key size {}).1 &&
    (AudioFileValidator.validate_magic_bytes env.sniff {}).1 &&
    (AudioFileValidator.validate_with_ffprobe jp pf st env.probeRun {}).1

/-- The Magika response of the end-to-end mp3 scenario: label "mp3",
    MIME "audio/mpeg", confidence 0.98. -/
def mp3SniffResult : MagikaResult :=
  { ok := true, status := "ok",
    output := { label := "mp3", description := "MP3 audio",
                mime_type := "audio/mpeg", group := "audio",
                is_text := false },
    score := Rat.divInt 49 50 }

/-- The parsed ffprobe document of the mp3 scenario: one audio stream,
    duration "180.5". -/
def mp3ProbeDoc : FFprobeOutput :=
  { format := { duration := some "180.5", bit_rate := some "192000",
                format_name := some "mp3" },
    streams := [{ codec_type := some "audio", codec_name := some "mp3" }] }

/-- The `json.loads` seam of the mp3 scenario. -/
def mp3Parse : String → Except String FFprobeOutput := fun _ => .ok mp3ProbeDoc

/-- The collaborator environment of the mp3 scenario: object size 1024
    resolvable, the sniff above, and a clean ffprobe run. -/
def mp3Env : AudioFileValidator.ValidationEnv :=
  { headResult := .ok 1024, sniff := .ok mp3SniffResult,
    probeRun := .completed 0 "mp3probe" "" }

/-- A Magika response whose label is outside the catalog but whose MIME
    type begins with "audio/" (the repository's own test input for the
    fallback heuristic). -/
def unknownAudioSniff : MagikaResult :=
  { ok := true, status := "ok",
    output := { label := "unknown_audio", description := "Unknown audio format",
                mime_type := "audio/x-unknown", group := "audio",
                is_text := false },
    score := Rat.divInt 17 20 }

/-- A Magika response detecting plain text. -/
def txtSniff : MagikaResult :=
  { ok := true, status := "ok",
    output := { label := "txt", description := "Text document",
                mime_type := "text/plain", group := "text", is_text := true },
    score := Rat.divInt 19 20 }

/-- Settings with both validation stages disabled. -/
def settingsOff : Settings :=
  { ENABLE_MAGIC_BYTE_VALIDATION := false, ENABLE_FFPROBE_VALIDATION := false }

/-- Environment whose sniff detects plain text. -/
def txtEnv : AudioFileValidator.ValidationEnv :=
  { headResult := .ok 1024, sniff := .ok txtSniff,
    probeRun := .completed 0 "mp3probe" "" }

/-- The generated output path of the transcode timeout scenario. -/
def timeoutOutPath : String :=
  SyncFFmpegProcessor.generate_output_path "/tmp/audio_extraction_service"
    "/in/sample.mp4" "wav" 1712

/-- A video-only mp4 scenario environment: supported label "mp4" but the
    probe reports one video stream and no audio stream. -/
def mp4VideoOnlyDoc : FFprobeOutput :=
  { format := { duration := some "120.5" },
    streams := [{ codec_type := some "video", codec_name := some "h264" }] }

/-- The Magika response of the mp4 scenario: label "mp4" (supported). -/
def mp4SniffResult : MagikaResult :=
  { ok := true, status := "ok",
    output := { label := "mp4", description := "MP4 video",
                mime_type := "video/mp4", group := "video",
                is_text := false },
    score := Rat.divInt 99 100 }

/-- A fully passing scenario for the pipeline: supported label "mp4",
    probe with one audio stream and duration "120.5". -/
def mp4AudioDoc : FFprobeOutput :=
  { format := { duration := some "120.5", bit_rate := some "192000",
                format_name := some "mov,mp4,m4a,3gp,3g2,mj2" },
    streams := [{ codec_type := some "audio", codec_name := some "aac" }] }

/-- The `json.loads` seam of the passing mp4 scenario. -/
def mp4Parse : String → Except String FFprobeOutput := fun _ => .ok mp4AudioDoc

/-- The collaborator environment of the passing mp4 scenario. -/
def mp4Env : AudioFileValidator.ValidationEnv :=
  { headResult := .ok 2048, sniff := .ok mp4SniffResult,
    probeRun := .completed 0 "mp4probe" "" }

/-! ## Verification of the specification claims -/

/-- Filtering away a path removes it from the filesystem state. -/
theorem unlink_not_exists (fs : FileSys) (p : String) :
    (fs.unlink p).exists p = false := by
  rw [Bool.eq_false_iff]
  intro hc
  have hmem : p ∈ List.filter (fun q => q != p) fs :=
    List.mem_of_elem_eq_true hc
  have hq := List.of_mem_filter hmem
  simp at hq

/-- C10: in the synchronous extraction-command builder, the quality flags
    for lowercased "mp3" / "flac" are appended after the output path, so
    the final argv element is the quality value ("2" resp. "8") instead of
    the output path, while every other format, and every call of the
    asynchronous builder, ends the argv with the output path. -/
theorem extraction_command_last_element
    (input_path output_path output_format audio_codec : String)
    (sample_rate channels : Int) :
    (SyncFFmpegProcessor.build_extraction_command input_path output_path
        output_format audio_codec sample_rate channels).getLast? =
      some (if pyLower output_format = "mp3" then "2"
            else if pyLower output_format = "flac" then "8"
            else output_path) ∧
    (FFmpegProcessor.build_extraction_command input_path output_path
        output_format audio_codec sample_rate channels).getLast? =
      some output_path := by
  constructor
  · simp only [SyncFFmpegProcessor.build_extraction_command]
    split_ifs <;> rfl
  · simp only [FFmpegProcessor.build_extraction_command]
    split_ifs <;> rfl

/-- One step of the batch loop per record: the handler's entry on
    success, the failure entry built from the record otherwise. -/
theorem processLoop_eq_map
    (handler : SQSRecordM → Except String ProcessedRecord) :
    ∀ records, EventProcessorService.processLoop handler records =
      records.map (fun record =>
        match handler record with
        | .ok pr => pr
        | .error _ =>
          { messageId := record.messageId, processed := false,
            body_length := record.body.length,
            source := record.eventSourceARN })
  | [] => rfl
  | record :: rest => by
    simp only [EventProcessorService.processLoop, List.map]
    rw [processLoop_eq_map handler rest]

/-- C8: `process_events` always reports status "success" and a
    processed count equal to the number of inbound records; the response
    entries are the per-record images, in input order, with an escaping
    per-record exception converted into a `processed = false` entry that
    preserves the record's messageId, body length and source — each entry
    depends only on its own record. -/
theorem process_events_batch_isolation
    (handler : SQSRecordM → Except String ProcessedRecord)
    (records : List SQSRecordM) :
    (EventProcessorService.process_events handler records).status =
      "success" ∧
    (EventProcessorService.process_events handler records).processed_count =
      records.length ∧
    (EventProcessorService.process_events handler records).records =
      records.map (fun record =>
        match handler record with
        | .ok pr => pr
        | .error _ =>
          { messageId := record.messageId, processed := false,
            body_length := record.body.length,
            source := record.eventSourceARN }) := by
  refine ⟨rfl, ?_, processLoop_eq_map handler records⟩
  show (EventProcessorService.processLoop handler records).length =
    records.length
  rw [processLoop_eq_map handler records, List.length_map]

/-- C9: `cleanup_file` (both processors) never raises; on a path that
    does not exist it leaves the filesystem unchanged, and — provided a
    successful `os.unlink` removes the path — running it twice on the
    same path equals running it once. -/
theorem cleanup_file_idempotent_best_effort
    (unlink : FileSys → String → Except String FileSys)
    (fs : FileSys) (p : String)
    (hOk : ∀ g g2, unlink g p = .ok g2 → g2.exists p = false) :
    (fs.exists p = false →
      SyncFFmpegProcessor.cleanup_file unlink fs p = fs ∧
      FFmpegProcessor.cleanup_file unlink fs p = fs) ∧
    SyncFFmpegProcessor.cleanup_file unlink
        (SyncFFmpegProcessor.cleanup_file unlink fs p) p =
      SyncFFmpegProcessor.cleanup_file unlink fs p ∧
    FFmpegProcessor.cleanup_file unlink
        (FFmpegProcessor.cleanup_file unlink fs p) p =
      FFmpegProcessor.cleanup_file unlink fs p := by
  refine ⟨fun h => ?_, ?_, ?_⟩
  · constructor
    · simp [SyncFFmpegProcessor.cleanup_file, h]
    · simp [FFmpegProcessor.cleanup_file, h]
  · by_cases h : fs.exists p
    · cases hu : unlink fs p with
      | error e =>
        have h1 : SyncFFmpegProcessor.cleanup_file unlink fs p = fs := by
          simp [SyncFFmpegProcessor.cleanup_file, h, hu]
        rw [h1]
        exact h1
      | ok fs2 =>
        have h1 : SyncFFmpegProcessor.cleanup_file unlink fs p = fs2 := by
          simp [SyncFFmpegProcessor.cleanup_file, h, hu]
        rw [h1]
        simp [SyncFFmpegProcessor.cleanup_file, hOk fs fs2 hu]
    · have h1 : SyncFFmpegProcessor.cleanup_file unlink fs p = fs := by
        simp [SyncFFmpegProcessor.cleanup_file, h]
      rw [h1, h1]
  · by_cases hp : p.isEmpty
    · simp [FFmpegProcessor.cleanup_file, hp]
    · by_cases h : fs.exists p
      · cases hu : unlink fs p with
        | error e =>
          have h1 : FFmpegProcessor.cleanup_file unlink fs p = fs := by
            simp [FFmpegProcessor.cleanup_file, hp, h, hu]
          rw [h1]
          exact h1
        | ok fs2 =>
          have h1 : FFmpegProcessor.cleanup_file unlink fs p = fs2 := by
            simp [FFmpegProcessor.cleanup_file, hp, h, hu]
          rw [h1]
          simp [FFmpegProcessor.cleanup_file, hOk fs fs2 hu]
      · have h1 : FFmpegProcessor.cleanup_file unlink fs p = fs := by
          simp [FFmpegProcessor.cleanup_file, hp, h]
        rw [h1, h1]

/-- Witness for C9 at a concrete filesystem and the deterministic unlink
    collaborator. -/
theorem cleanup_file_idempotent_best_effort_witness :
    SyncFFmpegProcessor.cleanup_file unlinkDet
        (SyncFFmpegProcessor.cleanup_file unlinkDet ["/tmp/a.wav"] "/tmp/a.wav")
        "/tmp/a.wav" =
      SyncFFmpegProcessor.cleanup_file unlinkDet ["/tmp/a.wav"] "/tmp/a.wav" :=
  (cleanup_file_idempotent_best_effort unlinkDet ["/tmp/a.wav"] "/tmp/a.wav"
    (fun g g2 h => by
      have h2 : g.unlink "/tmp/a.wav" = g2 := by
        simpa [unlinkDet] using h
      exact h2 ▸ unlink_not_exists g "/tmp/a.wav")).2.1

/-- C7 counterexample: a negative resolved size (-1, representable since
    the event schema carries a plain optional int) passes the bounds
    check, contradicting "passes iff 0 < s <= MAX" and "for any s ≤ 0 the
    stage must fail". -/
theorem bounds_check_accepts_negative_size :
    (AudioFileValidator.validate_basic_properties {} "sample.mp3" (-1)
      ({} : ValidationResult)).1 = true := by decide

/-- C7 (amended): the bounds check passes iff the size is non-zero and at
    most the configured maximum (negative sizes pass); a zero size fails
    with the emptiness message, an oversize fails with a message naming
    the violated bound, and a passing check appends no error. -/
theorem bounds_check_characterization (st : Settings) (object_key : String)
    (s : Int) (r : ValidationResult) :
    ((AudioFileValidator.validate_basic_properties st object_key s r).1 =
        true ↔ s ≠ 0 ∧ s ≤ st.MAX_VIDEO_FILE_SIZE) ∧
    (s = 0 →
      (AudioFileValidator.validate_basic_properties st object_key s
          r).2.errors = r.errors ++ ["File is empty (0 bytes)"]) ∧
    (s ≠ 0 → st.MAX_VIDEO_FILE_SIZE < s →
      (AudioFileValidator.validate_basic_properties st object_key s
          r).2.errors =
        r.errors ++ ["File too large: " ++ pyCommaFormat s ++
          " bytes (max: " ++ pyCommaFormat st.MAX_VIDEO_FILE_SIZE ++
          " bytes)"]) ∧
    ((AudioFileValidator.validate_basic_properties st object_key s r).1 =
        true →
      (AudioFileValidator.validate_basic_properties st object_key s
          r).2.errors = r.errors) := by
  simp only [AudioFileValidator.validate_basic_properties]
  split_ifs with h0 hbig
  · subst h0
    refine ⟨by simp, fun _ => by simp [ValidationResult.add_error],
      fun h _ => absurd rfl h, by simp⟩
  · refine ⟨?_, fun h => absurd h h0,
      fun _ _ => by simp [ValidationResult.add_error], ?_⟩
    · constructor
      · intro h
        simp at h
      · rintro ⟨-, hle⟩
        omega
    · intro h
      simp at h
  · refine ⟨?_, fun h => absurd h h0, fun _ hlt => by omega,
      fun _ => by simp [ValidationResult.setMeta]⟩
    constructor
    · intro _
      exact ⟨h0, by omega⟩
    · intro _
      rfl

/-- Witness for C7 (amended) at size 0 with the default settings. -/
theorem bounds_check_characterization_witness :
    (AudioFileValidator.validate_basic_properties {} "sample.mp3" 0
        ({} : ValidationResult)).2.errors =
      ([] : List String) ++ ["File is empty (0 bytes)"] :=
  (bounds_check_characterization {} "sample.mp3" 0 {}).2.1 rfl

/-- C3 evaluation: a synchronous extraction whose ffmpeg subprocess hits
    the timeout returns success = false with an error message mentioning
    "timed out", yet the partially written output file at the generated
    path is still on disk when the call returns; the same call failing
    with a non-zero exit instead does delete the file. -/
theorem transcode_timeout_output_file_survives :
    timeoutOutPath = "/tmp/audio_extraction_service/sample_1712.wav" ∧
    (SyncFFmpegProcessor.extract_audio {} "/tmp/audio_extraction_service"
        "/in/sample.mp4" "wav" "pcm_s16le" 44100 2 1712 .timeoutExpired
        [timeoutOutPath] 0 none).1.success = false ∧
    (SyncFFmpegProcessor.extract_audio {} "/tmp/audio_extraction_service"
        "/in/sample.mp4" "wav" "pcm_s16le" 44100 2 1712 .timeoutExpired
        [timeoutOutPath] 0 none).1.error_message =
      some "FFmpeg processing timed out after 300s" ∧
    strContains "FFmpeg processing timed out after 300s" "timed out" = true ∧
    (SyncFFmpegProcessor.extract_audio {} "/tmp/audio_extraction_service"
        "/in/sample.mp4" "wav" "pcm_s16le" 44100 2 1712 .timeoutExpired
        [timeoutOutPath] 0 none).2.exists timeoutOutPath = true ∧
    (SyncFFmpegProcessor.extract_audio {} "/tmp/audio_extraction_service"
        "/in/sample.mp4" "wav" "pcm_s16le" 44100 2 1712
        (.completed 1 "" "Error: conversion failed") [timeoutOutPath] 1
        none).2.exists timeoutOutPath = false := by decide

/-- C1 evaluation: in the end-to-end mp3 scenario (key "test.mp3", size
    1024, sniff label "mp3" with MIME "audio/mpeg", probe with one audio
    stream of duration "180.5") the source's catalog does not classify the
    key as an audio file, the label "mp3" is not in the supported set, and
    the pipeline returns an invalid outcome with a content-mismatch error
    and no duration metadata. -/
theorem mp3_scenario_fails_under_source_catalog :
    MediaTypes.is_audio_file "test.mp3" = false ∧
    MediaTypes.is_supported_format "mp3" = false ∧
    (AudioFileValidator.validate_audio_file mp3Parse decFloat {} mp3Env
        "test.mp3" (some 1024)).is_valid = false ∧
    (AudioFileValidator.validate_audio_file mp3Parse decFloat {} mp3Env
        "test.mp3" (some 1024)).errors =
      ["File content detected as \x27MP3 audio\x27 (mp3) which is not a supported audio/video format. Confidence: 0.980"] ∧
    dictGet (AudioFileValidator.validate_audio_file mp3Parse decFloat {}
        mp3Env "test.mp3" (some 1024)).metadata "duration" = none := by decide

/-- C2 evaluation: for a sniff result whose label is outside the catalog
    but whose MIME type begins with "audio/", the content-sniff stage of
    the source hard-fails with a content-mismatch error and records no
    warning: no MIME-prefix or keyword fallback acceptance exists in
    `_validate_magic_bytes`. -/
theorem sniff_stage_has_no_fallback_acceptance :
    pyStartsWith unknownAudioSniff.output.mime_type "audio/" = true ∧
    (AudioFileValidator.validate_magic_bytes (.ok unknownAudioSniff)
        ({} : ValidationResult)).1 = false ∧
    (AudioFileValidator.validate_magic_bytes (.ok unknownAudioSniff)
        ({} : ValidationResult)).2.errors =
      ["File content detected as \x27Unknown audio format\x27 (unknown_audio) which is not a supported audio/video format. Confidence: 0.850"] ∧
    (AudioFileValidator.validate_magic_bytes (.ok unknownAudioSniff)
        ({} : ValidationResult)).2.warnings = [] := by decide

/-- C4 evaluation: the validation pipeline is oblivious to the
    `ENABLE_MAGIC_BYTE_VALIDATION` / `ENABLE_FFPROBE_VALIDATION`
    settings — its outcome is identical with both flags forced off — and
    with both stages "disabled" a text sniff still hard-fails the run
    instead of being skipped with a warning. -/
theorem validation_stage_toggles_ignored :
    (∀ jp pf st env object_key object_size,
      AudioFileValidator.validate_audio_file jp pf
          { st with ENABLE_MAGIC_BYTE_VALIDATION := false,
                    ENABLE_FFPROBE_VALIDATION := false } env object_key
          object_size =
        AudioFileValidator.validate_audio_file jp pf st env object_key
          object_size) ∧
    settingsOff.ENABLE_MAGIC_BYTE_VALIDATION = false ∧
    settingsOff.ENABLE_FFPROBE_VALIDATION = false ∧
    (AudioFileValidator.validate_audio_file mp3Parse decFloat settingsOff
        txtEnv "test.mp3" (some 1024)).is_valid = false ∧
    (AudioFileValidator.validate_audio_file mp3Parse decFloat settingsOff
        txtEnv "test.mp3" (some 1024)).errors =
      ["File content detected as \x27Text document\x27 (txt) which is not a supported audio/video format. Confidence: 0.950"] ∧
    (AudioFileValidator.validate_audio_file mp3Parse decFloat settingsOff
        txtEnv "test.mp3" (some 1024)).warnings = [] := by
  refine ⟨fun jp pf st env object_key object_size => rfl, rfl, rfl, ?_, ?_, ?_⟩
    <;> decide

/-- C5: `_validate_audio_metadata` hard-fails exactly when the probe
    output has no streams of either kind, or video streams with no audio
    stream, or a present, non-empty, parsable duration that is ≤ 0; in
    the zero-stream case the error is the "No audio or video streams"
    message; a parsable duration above the configured maximum, an
    unparsable duration, and an absent duration each only append the
    respective warning, with the step succeeding. -/
theorem probe_metadata_policy (pf : String → Option ℚ) (st : Settings)
    (md : FFprobeOutput) (r : ValidationResult) :
    ((AudioFileValidator.validate_audio_metadata pf st md r).1 = false ↔
      (md.streams.filter (fun s => s.codec_type == some "audio") = [] ∧
        md.streams.filter (fun s => s.codec_type == some "video") = []) ∨
      (md.streams.filter (fun s => s.codec_type == some "audio") = [] ∧
        md.streams.filter (fun s => s.codec_type == some "video") ≠ []) ∨
      (∃ ds q, md.format.duration = some ds ∧ ds ≠ "" ∧ pf ds = some q ∧
        q ≤ 0)) ∧
    (md.streams.filter (fun s => s.codec_type == some "audio") = [] ∧
      md.streams.filter (fun s => s.codec_type == some "video") = [] →
      (AudioFileValidator.validate_audio_metadata pf st md r).2.errors =
        r.errors ++ ["No audio or video streams found in file"]) ∧
    (md.streams.filter (fun s => s.codec_type == some "audio") = [] ∧
      md.streams.filter (fun s => s.codec_type == some "video") ≠ [] →
      (AudioFileValidator.validate_audio_metadata pf st md r).2.errors =
        r.errors ++ ["File contains video but no audio streams"]) ∧
    (∀ ds q, md.streams.filter (fun s => s.codec_type == some "audio") ≠ [] →
      md.format.duration = some ds → ds ≠ "" → pf ds = some q → ¬ q ≤ 0 →
      (st.MAX_AUDIO_DURATION : ℚ) < q →
      (AudioFileValidator.validate_audio_metadata pf st md r).1 = true ∧
      (AudioFileValidator.validate_audio_metadata pf st md r).2.warnings =
        r.warnings ++ ["Very long audio file: " ++ formatFixed 1 q ++
          "s (max recommended: " ++ toString st.MAX_AUDIO_DURATION ++ "s)"]) ∧
    (∀ ds, md.streams.filter (fun s => s.codec_type == some "audio") ≠ [] →
      md.format.duration = some ds → ds ≠ "" → pf ds = none →
      (AudioFileValidator.validate_audio_metadata pf st md r).1 = true ∧
      (AudioFileValidator.validate_audio_metadata pf st md r).2.warnings =
        r.warnings ++ ["Unable to parse audio duration"]) ∧
    (md.streams.filter (fun s => s.codec_type == some "audio") ≠ [] →
      md.format.duration = none ∨ md.format.duration = some "" →
      (AudioFileValidator.validate_audio_metadata pf st md r).1 = true ∧
      (AudioFileValidator.validate_audio_metadata pf st md r).2.warnings =
        r.warnings ++ ["Duration information not available"]) := by
  rcases hA : md.streams.filter (fun s => s.codec_type == some "audio") with
    _ | ⟨a0, arest⟩
  · rcases hV : md.streams.filter (fun s => s.codec_type == some "video") with
      _ | ⟨v0, vrest⟩
    · simp [AudioFileValidator.validate_audio_metadata, hA, hV,
        ValidationResult.add_error]
    · simp [AudioFileValidator.validate_audio_metadata, hA, hV,
        ValidationResult.add_error]
  · rcases hd : md.format.duration with _ | ds
    · simp [AudioFileValidator.validate_audio_metadata, hA, hd,
        ValidationResult.add_warning, ValidationResult.setMeta]
    · by_cases hds : ds = ""
      · subst hds
        simp only [AudioFileValidator.validate_audio_metadata, hA, hd]
        simp [ValidationResult.add_warning, ValidationResult.setMeta]
        intro ds q h1 h2
        exact absurd h1.symm h2
      · rcases hq : pf ds with _ | q
        · simp [AudioFileValidator.validate_audio_metadata, hA, hd, hds, hq,
            ValidationResult.add_warning, ValidationResult.setMeta]
          intro ds1 q h1 h2 h3
          rw [h1] at hq
          rw [hq] at h3
          simp at h3
        · by_cases hq0 : q ≤ 0
          · simp [AudioFileValidator.validate_audio_metadata, hA, hd, hds,
              hq, hq0, ValidationResult.add_error, ValidationResult.setMeta]
            intro ds1 q1 h1 h2 h3 h4
            rw [h1] at hq
            rw [hq] at h3
            injection h3 with h5
            subst h5
            exact absurd h4 (not_lt.mpr hq0)
          · by_cases hmax : (st.MAX_AUDIO_DURATION : ℚ) < q
            · simp [AudioFileValidator.validate_audio_metadata, hA, hd, hds,
                hq, hq0, hmax, ValidationResult.add_warning,
                ValidationResult.setMeta]
              intro ds1 q1 h1 h2 h3 h4 h5
              rw [h1] at hq
              rw [hq] at h3
              injection h3 with h6
              subst h6
              rfl
            · simp [AudioFileValidator.validate_audio_metadata, hA, hd, hds,
                hq, hq0, hmax, ValidationResult.add_warning,
                ValidationResult.setMeta]
              intro ds1 q1 h1 h2 h3 h4
              rw [h1] at hq
              rw [hq] at h3
              injection h3 with h5
              subst h5
              exact not_lt.mp hmax

/-- Witness for C5: on a probe document with no streams at all the step
    records the zero-stream error. -/
theorem probe_metadata_policy_witness :
    (AudioFileValidator.validate_audio_metadata decFloat {} {}
        ({} : ValidationResult)).2.errors =
      ([] : List String) ++ ["No audio or video streams found in file"] :=
  (probe_metadata_policy decFloat {} {} {}).2.1 ⟨rfl, rfl⟩

/-- The bounds-check layer: its verdict ignores the accumulated result,
    it never touches `is_valid`, and a pass appends no error. -/
theorem basic_props_triple (st : Settings) (k : String) (s : Int)
    (r r' : ValidationResult) :
    (AudioFileValidator.validate_basic_properties st k s r).1 =
      (AudioFileValidator.validate_basic_properties st k s r').1 ∧
    (AudioFileValidator.validate_basic_properties st k s r).2.is_valid =
      r.is_valid ∧
    ((AudioFileValidator.validate_basic_properties st k s r).1 = true →
      (AudioFileValidator.validate_basic_properties st k s r).2.errors =
        r.errors) := by
  simp only [AudioFileValidator.validate_basic_properties]
  split_ifs <;> simp [ValidationResult.add_error, ValidationResult.setMeta]

/-- The content-sniff layer: verdict independent of the accumulated
    result, `is_valid` untouched, a pass appends no error. -/
theorem magic_bytes_triple (sniff : Except AudioFileValidator.PyErr MagikaResult)
    (r r' : ValidationResult) :
    (AudioFileValidator.validate_magic_bytes sniff r).1 =
      (AudioFileValidator.validate_magic_bytes sniff r').1 ∧
    (AudioFileValidator.validate_magic_bytes sniff r).2.is_valid =
      r.is_valid ∧
    ((AudioFileValidator.validate_magic_bytes sniff r).1 = true →
      (AudioFileValidator.validate_magic_bytes sniff r).2.errors =
        r.errors) := by
  cases sniff with
  | error e =>
    cases e <;>
      simp [AudioFileValidator.validate_magic_bytes, ValidationResult.add_error]
  | ok m =>
    cases hok : m.ok <;>
      by_cases hsup : MediaTypes.is_supported_format m.output.label <;>
        simp [AudioFileValidator.validate_magic_bytes, hok, hsup,
          ValidationResult.add_error, ValidationResult.setMeta]

/-- The probe-metadata step: verdict independent of the accumulated
    result, `is_valid` untouched, a pass appends no error. -/
theorem audio_metadata_triple (pf : String → Option ℚ) (st : Settings)
    (md : FFprobeOutput) (r r' : ValidationResult) :
    (AudioFileValidator.validate_audio_metadata pf st md r).1 =
      (AudioFileValidator.validate_audio_metadata pf st md r').1 ∧
    (AudioFileValidator.validate_audio_metadata pf st md r).2.is_valid =
      r.is_valid ∧
    ((AudioFileValidator.validate_audio_metadata pf st md r).1 = true →
      (AudioFileValidator.validate_audio_metadata pf st md r).2.errors =
        r.errors) := by
  rcases hA : md.streams.filter (fun s => s.codec_type == some "audio") with
    _ | ⟨a0, arest⟩
  · rcases hV : md.streams.filter (fun s => s.codec_type == some "video") with
      _ | ⟨v0, vrest⟩ <;>
      simp [AudioFileValidator.validate_audio_metadata, hA, hV,
        ValidationResult.add_error]
  · rcases hd : md.format.duration with _ | ds
    · simp [AudioFileValidator.validate_audio_metadata, hA, hd,
        ValidationResult.add_warning, ValidationResult.setMeta]
    · by_cases hds : ds = ""
      · simp [AudioFileValidator.validate_audio_metadata, hA, hd, hds,
          ValidationResult.add_warning, ValidationResult.setMeta]
      · rcases hq : pf ds with _ | q
        · simp [AudioFileValidator.validate_audio_metadata, hA, hd, hds, hq,
            ValidationResult.add_warning, ValidationResult.setMeta]
        · by_cases hq0 : q ≤ 0
          · simp [AudioFileValidator.validate_audio_metadata, hA, hd, hds,
              hq, hq0, ValidationResult.add_error, ValidationResult.setMeta]
          · by_cases hmax : (st.MAX_AUDIO_DURATION : ℚ) < q <;>
              simp [AudioFileValidator.validate_audio_metadata, hA, hd, hds,
                hq, hq0, hmax, ValidationResult.add_warning,
                ValidationResult.setMeta]

/-- The ffprobe layer: verdict independent of the accumulated result,
    `is_valid` untouched, a pass appends no error. -/
theorem ffprobe_triple (jp : String → Except String FFprobeOutput)
    (pf : String → Option ℚ) (st : Settings)
    (run : AudioFileValidator.ProcRun) (r r' : ValidationResult) :
    (AudioFileValidator.validate_with_ffprobe jp pf st run r).1 =
      (AudioFileValidator.validate_with_ffprobe jp pf st run r').1 ∧
    (AudioFileValidator.validate_with_ffprobe jp pf st run r).2.is_valid =
      r.is_valid ∧
    ((AudioFileValidator.validate_with_ffprobe jp pf st run r).1 = true →
      (AudioFileValidator.validate_with_ffprobe jp pf st run r).2.errors =
        r.errors) := by
  cases run with
  | timeoutExpired =>
    simp [AudioFileValidator.validate_with_ffprobe,
      ValidationResult.add_error]
  | completed rc out err =>
    by_cases hrc : rc = 0
    · cases hj : jp out with
      | error e =>
        simp [AudioFileValidator.validate_with_ffprobe, hrc, hj,
          ValidationResult.add_error]
      | ok mdd =>
        have h1 := audio_metadata_triple pf st mdd
          (r.setMeta "ffprobe" (.ffprobeData mdd))
          (r'.setMeta "ffprobe" (.ffprobeData mdd))
        simp only [AudioFileValidator.validate_with_ffprobe, hrc, hj]
        simp only [ne_eq, not_true_eq_false, if_false, reduceIte]
        refine ⟨h1.1, ?_, ?_⟩
        · rw [h1.2.1]
          simp [ValidationResult.setMeta]
        · intro hv
          rw [h1.2.2 hv]
          simp [ValidationResult.setMeta]
    · simp [AudioFileValidator.validate_with_ffprobe, hrc,
        ValidationResult.add_error]

/-- The chained layers: the final `is_valid` equals the conjunction of
    the three layer verdicts (each recomputed on a fresh result), and a
    valid outcome appends no error to the incoming result. -/
theorem validate_layers_triple (jp : String → Except String FFprobeOutput)
    (pf : String → Option ℚ) (st : Settings)
    (env : AudioFileValidator.ValidationEnv) (key : String) (size : Int)
    (r : ValidationResult) (hr : r.is_valid = false) :
    (AudioFileValidator.validate_layers jp pf st env key size r).is_valid =
      ((AudioFileValidator.validate_basic_properties st key size
          ({} : ValidationResult)).1 &&
        (AudioFileValidator.validate_magic_bytes env.sniff
          ({} : ValidationResult)).1 &&
        (AudioFileValidator.validate_with_ffprobe jp pf st env.probeRun
          ({} : ValidationResult)).1) ∧
    ((AudioFileValidator.validate_layers jp pf st env key size r).is_valid =
        true →
      (AudioFileValidator.validate_layers jp pf st env key size r).errors =
        r.errors) := by
  have t1 := basic_props_triple st key size r ({} : ValidationResult)
  simp only [AudioFileValidator.validate_layers]
  cases h1 : (AudioFileValidator.validate_basic_properties st key size r).1 with
  | false =>
    have e1 : (AudioFileValidator.validate_basic_properties st key size
        ({} : ValidationResult)).1 = false := by
      rw [← t1.1, h1]
    rw [if_pos (show (!false) = true from rfl), e1]
    refine ⟨by rw [t1.2.1, hr, Bool.false_and, Bool.false_and], ?_⟩
    intro hv
    rw [t1.2.1, hr] at hv
    exact absurd hv (by simp)
  | true =>
    have e1 : (AudioFileValidator.validate_basic_properties st key size
        ({} : ValidationResult)).1 = true := by
      rw [← t1.1, h1]
    rw [if_neg (show ¬ ((!true) = true) from by simp), e1, Bool.true_and]
    have t2 := magic_bytes_triple env.sniff
      (AudioFileValidator.validate_basic_properties st key size r).2
      ({} : ValidationResult)
    cases h2 : (AudioFileValidator.validate_magic_bytes env.sniff
        (AudioFileValidator.validate_basic_properties st key size r).2).1 with
    | false =>
      have e2 : (AudioFileValidator.validate_magic_bytes env.sniff
          ({} : ValidationResult)).1 = false := by
        rw [← t2.1, h2]
      rw [if_pos (show (!false) = true from rfl), e2, Bool.false_and]
      refine ⟨by rw [t2.2.1, t1.2.1, hr], ?_⟩
      intro hv
      rw [t2.2.1, t1.2.1, hr] at hv
      exact absurd hv (by simp)
    | true =>
      have e2 : (AudioFileValidator.validate_magic_bytes env.sniff
          ({} : ValidationResult)).1 = true := by
        rw [← t2.1, h2]
      rw [if_neg (show ¬ ((!true) = true) from by simp), e2, Bool.true_and]
      have t3 := ffprobe_triple jp pf st env.probeRun
        (AudioFileValidator.validate_magic_bytes env.sniff
          (AudioFileValidator.validate_basic_properties st key size r).2).2
        ({} : ValidationResult)
      cases h3 : (AudioFileValidator.validate_with_ffprobe jp pf st
          env.probeRun
          (AudioFileValidator.validate_magic_bytes env.sniff
            (AudioFileValidator.validate_basic_properties st key size
              r).2).2).1 with
      | false =>
        have e3 : (AudioFileValidator.validate_with_ffprobe jp pf st
            env.probeRun ({} : ValidationResult)).1 = false := by
          rw [← t3.1, h3]
        rw [if_pos (show (!false) = true from rfl), e3]
        refine ⟨by rw [t3.2.1, t2.2.1, t1.2.1, hr], ?_⟩
        intro hv
        rw [t3.2.1, t2.2.1, t1.2.1, hr] at hv
        exact absurd hv (by simp)
      | true =>
        have e3 : (AudioFileValidator.validate_with_ffprobe jp pf st
            env.probeRun ({} : ValidationResult)).1 = true := by
          rw [← t3.1, h3]
        rw [if_neg (show ¬ ((!true) = true) from by simp), e3]
        refine ⟨rfl, fun _ => ?_⟩
        show (AudioFileValidator.validate_with_ffprobe jp pf st env.probeRun
          (AudioFileValidator.validate_magic_bytes env.sniff
            (AudioFileValidator.validate_basic_properties st key size
              r).2).2).2.errors = r.errors
        rw [t3.2.2 h3, t2.2.2 h2, t1.2.2 h1]

/-- C6: the pipeline's outcome satisfies `is_valid = true → errors = []`,
    and `is_valid` equals the conjunction of the individual layer
    verdicts (size resolution and the three layers), so validity arises
    only when every stage passed. -/
theorem valid_implies_no_errors_and_all_layers
    (jp : String → Except String FFprobeOutput) (pf : String → Option ℚ)
    (st : Settings) (env : AudioFileValidator.ValidationEnv)
    (object_key : String) (object_size : Option Int) :
    ((AudioFileValidator.validate_audio_file jp pf st env object_key
        object_size).is_valid = true →
      (AudioFileValidator.validate_audio_file jp pf st env object_key
        object_size).errors = []) ∧
    (AudioFileValidator.validate_audio_file jp pf st env object_key
        object_size).is_valid =
      all_layers_pass jp pf st env object_key object_size := by
  cases object_size with
  | some size =>
    have h := validate_layers_triple jp pf st env object_key size
      ({} : ValidationResult) rfl
    exact ⟨fun hv => h.2 hv, h.1⟩
  | none =>
    cases hh : env.headResult with
    | error e =>
      constructor
      · intro hv
        simp [AudioFileValidator.validate_audio_file,
          AudioFileValidator.get_object_size, hh,
          ValidationResult.add_error] at hv
      · simp [AudioFileValidator.validate_audio_file,
          AudioFileValidator.get_object_size, hh, all_layers_pass,
          Except.toOption, ValidationResult.add_error]
    | ok n =>
      have h := validate_layers_triple jp pf st env object_key n
        ({} : ValidationResult) rfl
      constructor
      · intro hv
        simp only [AudioFileValidator.validate_audio_file,
          AudioFileValidator.get_object_size, hh] at hv ⊢
        exact h.2 hv
      · simp only [AudioFileValidator.validate_audio_file,
          AudioFileValidator.get_object_size, hh, all_layers_pass,
          Except.toOption]
        exact h.1

/-- Witness for C6 at the passing mp4 scenario. -/
theorem valid_implies_no_errors_and_all_layers_witness :
    (AudioFileValidator.validate_audio_file mp4Parse decFloat {} mp4Env
        "video.mp4" (some 2048)).errors = ([] : List String) :=
  (valid_implies_no_errors_and_all_layers mp4Parse decFloat {} mp4Env
    "video.mp4" (some 2048)).1 (by decide)
